import Mathlib

/-!
Shallow embedding of the emotion-detection repository:
`EmotionDetection/emotion_detection.py` (the Normalizer `emotion_detector`)
and `server.py` (the Flask route `emotion_detector_route`).

Python floats are modelled as exact rationals, JSON values as an inductive
type, Python exceptions as `Except PyErr`, and the single outbound HTTP call
as an explicit `Upstream` parameter together with a Boolean recording whether
the call was performed.
-/

set_option autoImplicit false

namespace EmotionDetection

/-- A JSON value as produced by `resp.json()` in Python. -/
inductive JValue where
  | null : JValue
  | bool : Bool → JValue
  | num : ℚ → JValue
  | str : String → JValue
  | arr : List JValue → JValue
  | obj : List (String × JValue) → JValue

/-- `WATSON_URL` constant from `emotion_detection.py` line 5. -/
def WATSON_URL : String :=
  "https://sn-watson-emotion.labs.skills.network/v1/watson.runtime.nlp.v1/NlpService/EmotionPredict"

/-- `HEADERS` constant from `emotion_detection.py` line 6. -/
def HEADERS : List (String × String) :=
  [("grpc-metadata-mm-model-id", "emotion_aggregated-workflow_lang_en_stock")]

/-- The `timeout=10` argument of the `requests.post` call (line 26). -/
def REQUEST_TIMEOUT : ℕ := 10

/-- The Python exceptions that the embedded code can raise. -/
inductive PyErr where
  | transport : PyErr
  | attributeError : PyErr
  | typeError : PyErr
  | keyError : PyErr
  | indexError : PyErr
  | valueError : PyErr
deriving DecidableEq

/-- The `Result` dict shape of `emotion_detection.py` (line 8): five optional
scores plus the optional dominant-emotion label. -/
structure Result where
  anger : Option ℚ
  disgust : Option ℚ
  fear : Option ℚ
  joy : Option ℚ
  sadness : Option ℚ
  dominant_emotion : Option String
deriving DecidableEq

/-- `EMPTY_RESULT` from `emotion_detection.py` lines 10-17: all six fields None. -/
def EMPTY_RESULT : Result :=
  { anger := none, disgust := none, fear := none, joy := none, sadness := none,
    dominant_emotion := none }

/-- Outcome of the outbound `requests.post` call: either a transport-level
failure (connection error / timeout, which `requests.post` raises), or a
response with a status code and a body; `none` for the body means
`resp.json()` raises a parse error. -/
inductive Upstream where
  | transportError : Upstream
  | response : ℕ → Option JValue → Upstream

/-- Python `str.strip()`: remove leading and trailing whitespace. Defined by
structural recursion over the character list so it evaluates by `decide`. -/
def pyStrip (s : String) : String :=
  String.mk (((s.data.dropWhile Char.isWhitespace).reverse.dropWhile Char.isWhitespace).reverse)

/-- Python `value.get(key, default)`: dictionary lookup with a default; on a
non-dict value `.get` raises `AttributeError`. -/
def jGet : JValue → String → JValue → Except PyErr JValue
  | .obj fields, key, dflt => .ok ((fields.lookup key).getD dflt)
  | _, _, _ => .error .attributeError

/-- Python truthiness, as used by `if not preds` (line 39). -/
def pyTruthy : JValue → Bool
  | .null => false
  | .bool b => b
  | .num q => q != 0
  | .str s => s != ""
  | .arr xs => !xs.isEmpty
  | .obj fields => !fields.isEmpty

/-- Python `value[0]` (line 42): first element of a list; a string indexes to
its first character; dicts raise `KeyError` for the absent key `0`; other
values raise `TypeError`; an empty sequence raises `IndexError`. -/
def pyIndex0 : JValue → Except PyErr JValue
  | .arr [] => .error .indexError
  | .arr (x :: _) => .ok x
  | .str s =>
    match s.data with
    | [] => .error .indexError
    | c :: _ => .ok (.str (String.mk [c]))
  | .obj _ => .error .keyError
  | _ => .error .typeError

/-- Numeric value of a list of decimal digits. -/
def digitsVal (cs : List Char) : ℕ :=
  List.foldl (fun n c => n * 10 + (c.toNat - 48)) 0 cs

/-- Unsigned decimal-literal parsing for Python `float(str)`: digits with an
optional fractional part, at least one digit overall. -/
def parseUnsigned? (cs : List Char) : Option ℚ :=
  let intPart := cs.takeWhile Char.isDigit
  let rest := cs.dropWhile Char.isDigit
  match rest with
  | [] => if intPart.isEmpty then none else some (digitsVal intPart : ℚ)
  | c :: rest2 =>
    if c = '.' then
      let fracPart := rest2.takeWhile Char.isDigit
      let rest3 := rest2.dropWhile Char.isDigit
      if rest3.isEmpty && !(intPart.isEmpty && fracPart.isEmpty) then
        some ((digitsVal intPart : ℚ) + (digitsVal fracPart : ℚ) / (10 ^ fracPart.length))
      else none
    else none

/-- Python `float(string)`: surrounding whitespace and an optional sign are
accepted; a string that is not a decimal literal raises `ValueError`. -/
def parseFloat? (s : String) : Option ℚ :=
  match (pyStrip s).data with
  | [] => none
  | c :: rest =>
    if c = '-' then (parseUnsigned? rest).map Neg.neg
    else if c = '+' then parseUnsigned? rest
    else parseUnsigned? (c :: rest)

/-- Python `float(value)`: numbers pass through, booleans become 0/1, strings
are parsed (raising `ValueError` on failure), everything else raises
`TypeError`. -/
def pyFloat : JValue → Except PyErr ℚ
  | .num q => .ok q
  | .bool b => .ok (if b then 1 else 0)
  | .str s =>
    match parseFloat? s with
    | some q => .ok q
    | none => .error .valueError
  | _ => .error .typeError

/-- `float(scores.get(key, 0.0))` — lines 43-47 of `emotion_detection.py`. -/
def getScore (scores : JValue) (key : String) : Except PyErr ℚ :=
  match jGet scores key (.num 0) with
  | .error e => .error e
  | .ok v => pyFloat v

/-- Python `max(iterable, key=...)`: fold keeping the current best, replacing
it only on a strictly greater key, so the FIRST maximal element wins ties. -/
def pyMaxBy (key : String × ℚ → ℚ) (x : String × ℚ) (xs : List (String × ℚ)) : String × ℚ :=
  List.foldl (fun best y => if key y > key best then y else best) x xs

/-- The dominant-emotion computation of lines 49-56: `max` over the five
(name, score) pairs in source order with `key=lambda kv: kv[1]`, then `[0]`. -/
def dominantOf (anger disgust fear joy sadness : ℚ) : String :=
  (pyMaxBy (fun kv => kv.2) ("anger", anger)
    [("disgust", disgust), ("fear", fear), ("joy", joy), ("sadness", sadness)]).1

/-- Lines 29-65 of `emotion_detector`: everything after the `requests.post`
call, acting on the upstream status code and parsed-or-unparseable body. -/
def detectorCore (status : ℕ) (body : Option JValue) : Except PyErr Result :=
  if status = 400 then .ok EMPTY_RESULT
  else
    match body with
    | none => .ok EMPTY_RESULT
    | some data =>
      match jGet data "emotionPredictions" (.arr []) with
      | .error e => .error e
      | .ok preds =>
        if pyTruthy preds then
          match pyIndex0 preds with
          | .error e => .error e
          | .ok firstPred =>
            match jGet firstPred "emotion" (.obj []) with
            | .error e => .error e
            | .ok scores =>
              match getScore scores "anger" with
              | .error e => .error e
              | .ok anger =>
                match getScore scores "disgust" with
                | .error e => .error e
                | .ok disgust =>
                  match getScore scores "fear" with
                  | .error e => .error e
                  | .ok fear =>
                    match getScore scores "joy" with
                    | .error e => .error e
                    | .ok joy =>
                      match getScore scores "sadness" with
                      | .error e => .error e
                      | .ok sadness =>
                        .ok { anger := some anger, disgust := some disgust,
                              fear := some fear, joy := some joy,
                              sadness := some sadness,
                              dominant_emotion :=
                                some (dominantOf anger disgust fear joy sadness) }
        else .ok EMPTY_RESULT

/-- `emotion_detector` from `emotion_detection.py`. The second component of
the pair records whether the outbound network call was performed. -/
def emotion_detector (text_to_analyze : String) (up : Upstream) :
    Except PyErr Result × Bool :=
  if text_to_analyze = "" ∨ pyStrip text_to_analyze = "" then (.ok EMPTY_RESULT, false)
  else
    match up with
    | .transportError => (.error .transport, true)
    | .response status body => (detectorCore status body, true)

end EmotionDetection

namespace Server

open EmotionDetection

/-- The HTTP method of an inbound request to `/emotionDetector`. -/
inductive Method where
  | get : Method
  | post : Method
deriving DecidableEq

/-- An inbound request to `/emotionDetector`: `request.args.get("textToAnalyze")`
and `request.form.get("textToAnalyze")` as they would be seen by Flask. -/
structure HttpRequest where
  method : Method
  argsTextToAnalyze : Option String
  formTextToAnalyze : Option String

/-- `(request.xxx.get("textToAnalyze") or "")`: `None` and the falsy empty
string both become `""`. -/
def pyOrEmpty (o : Option String) : String :=
  match o with
  | none => ""
  | some s => if s = "" then "" else s

/-- Lines 18-21 of `server.py`: pick the field by method, then `.strip()`. -/
def extractText (req : HttpRequest) : String :=
  match req.method with
  | .get => pyStrip (pyOrEmpty req.argsTextToAnalyze)
  | .post => pyStrip (pyOrEmpty req.formTextToAnalyze)

/-- Rendering of one optional score into the response body, standing in for
Python float formatting inside the f-string. -/
def fmtScore (o : Option ℚ) : String :=
  match o with
  | none => "None"
  | some q =>
    if q.den = 1 then toString q.num ++ ".0"
    else toString q.num ++ "/" ++ toString q.den

/-- Rendering of the optional dominant label into the response body. -/
def fmtLabel (o : Option String) : String :=
  match o with
  | none => "None"
  | some s => s

/-- The f-string of `server.py` lines 29-35. -/
def formatted (r : Result) : String :=
  "For the given statement, the system response is \x27anger\x27: " ++
    fmtScore r.anger ++ ", \x27disgust\x27: " ++ fmtScore r.disgust ++
    ", \x27fear\x27: " ++ fmtScore r.fear ++ ", \x27joy\x27: " ++ fmtScore r.joy ++
    " and \x27sadness\x27: " ++ fmtScore r.sadness ++
    ". The dominant emotion is " ++ fmtLabel r.dominant_emotion ++ "."

/-- `emotion_detector_route` from `server.py`: extract the text, call the
Normalizer, then respond. An uncaught Python exception from the Normalizer
surfaces as `.error`. -/
def emotion_detector_route (req : HttpRequest) (up : Upstream) :
    Except PyErr (String × ℕ) :=
  match (emotion_detector (extractText req) up).1 with
  | .error e => .error e
  | .ok result =>
    if result.dominant_emotion = none then .ok ("Invalid text! Please try again!", 200)
    else .ok (formatted result, 200)

end Server

namespace EmotionDetection

/-- Spec-side argmax: the earliest key in the fixed order anger, disgust,
fear, joy, sadness whose score is greater than or equal to every score. -/
def specArgmax (anger disgust fear joy sadness : ℚ) : String :=
  if anger ≥ disgust ∧ anger ≥ fear ∧ anger ≥ joy ∧ anger ≥ sadness then "anger"
  else if disgust ≥ fear ∧ disgust ≥ joy ∧ disgust ≥ sadness then "disgust"
  else if fear ≥ joy ∧ fear ≥ sadness then "fear"
  else if joy ≥ sadness then "joy"
  else "sadness"

/-- A well-formed upstream success body: the five scores in the first
prediction entry, followed by arbitrary further prediction entries. -/
def successBody (anger disgust fear joy sadness : ℚ) (rest : List JValue) : JValue :=
  .obj [("emotionPredictions", .arr (.obj [("emotion", .obj
    [("anger", .num anger), ("disgust", .num disgust), ("fear", .num fear),
     ("joy", .num joy), ("sadness", .num sadness)])] :: rest))]

/-- The fully-populated record the Normalizer builds on the success path. -/
def fullResult (anger disgust fear joy sadness : ℚ) : Result :=
  { anger := some anger, disgust := some disgust, fear := some fear,
    joy := some joy, sadness := some sadness,
    dominant_emotion := some (dominantOf anger disgust fear joy sadness) }

/-- A score mapping containing exactly the keys whose optional value is
present, in source order; used to quantify over which of the five emotion
keys the first prediction entry carries. -/
def mkScores (oA oD oF oJ oS : Option ℚ) : List (String × JValue) :=
  (match oA with | some q => [("anger", JValue.num q)] | none => []) ++
  (match oD with | some q => [("disgust", JValue.num q)] | none => []) ++
  (match oF with | some q => [("fear", JValue.num q)] | none => []) ++
  (match oJ with | some q => [("joy", JValue.num q)] | none => []) ++
  (match oS with | some q => [("sadness", JValue.num q)] | none => [])

/-- An upstream body whose first prediction entry carries exactly the present
keys of `mkScores`, followed by arbitrary further prediction entries. -/
def partialBody (oA oD oF oJ oS : Option ℚ) (rest : List JValue) : JValue :=
  .obj [("emotionPredictions", .arr (.obj [("emotion",
    .obj (mkScores oA oD oF oJ oS))] :: rest))]

end EmotionDetection

namespace EmotionDetection

theorem dominantOf_eq_specArgmax (a d f j s : ℚ) :
    dominantOf a d f j s = specArgmax a d f j s := by
  unfold dominantOf pyMaxBy specArgmax
  simp only [List.foldl]
  by_cases h1 : d > a
  · simp only [h1, if_true]
    by_cases h2 : f > d
    · simp only [h2, if_true]
      by_cases h3 : j > f
      · simp only [h3, if_true]
        by_cases h4 : s > j
        · -- TTTT: sadness
          simp only [h4, if_true]
          simp [not_le.mpr h1, not_le.mpr h2, not_le.mpr h3, not_le.mpr h4]
        · -- TTTF: joy
          simp only [h4, if_false]
          push_neg at h4
          simp [not_le.mpr h1, not_le.mpr h2, not_le.mpr h3, h4]
      · simp only [h3, if_false]
        push_neg at h3
        by_cases h4 : s > f
        · -- TTFT: sadness
          simp only [h4, if_true]
          simp [not_le.mpr h1, not_le.mpr h2, not_le.mpr h4,
            not_le.mpr (lt_of_le_of_lt h3 h4)]
        · -- TTFF: fear
          simp only [h4, if_false]
          push_neg at h4
          simp [not_le.mpr h1, not_le.mpr h2, h3, h4]
    · simp only [h2, if_false]
      push_neg at h2
      by_cases h3 : j > d
      · simp only [h3, if_true]
        by_cases h4 : s > j
        · -- TFTT: sadness
          simp only [h4, if_true]
          simp [not_le.mpr h1, not_le.mpr h3, not_le.mpr (lt_of_le_of_lt h2 h3),
            not_le.mpr h4]
        · -- TFTF: joy
          simp only [h4, if_false]
          push_neg at h4
          simp [not_le.mpr h1, not_le.mpr h3, not_le.mpr (lt_of_le_of_lt h2 h3), h4]
      · simp only [h3, if_false]
        push_neg at h3
        by_cases h4 : s > d
        · -- TFFT: sadness
          simp only [h4, if_true]
          simp [not_le.mpr h1, not_le.mpr h4, not_le.mpr (lt_of_le_of_lt h2 h4),
            not_le.mpr (lt_of_le_of_lt h3 h4)]
        · -- TFFF: disgust
          simp only [h4, if_false]
          push_neg at h4
          simp [not_le.mpr h1, h2, h3, h4]
  · simp only [h1, if_false]
    push_neg at h1
    by_cases h2 : f > a
    · simp only [h2, if_true]
      by_cases h3 : j > f
      · simp only [h3, if_true]
        by_cases h4 : s > j
        · -- FTTT: sadness
          simp only [h4, if_true]
          simp [not_le.mpr h2, not_le.mpr (lt_of_le_of_lt h1 h2), not_le.mpr h3,
            not_le.mpr h4]
        · -- FTTF: joy
          simp only [h4, if_false]
          push_neg at h4
          simp [not_le.mpr h2, not_le.mpr (lt_of_le_of_lt h1 h2), not_le.mpr h3, h4]
      · simp only [h3, if_false]
        push_neg at h3
        by_cases h4 : s > f
        · -- FTFT: sadness
          simp only [h4, if_true]
          simp [not_le.mpr h2, not_le.mpr (lt_of_le_of_lt h1 h2), not_le.mpr h4,
            not_le.mpr (lt_of_le_of_lt h3 h4)]
        · -- FTFF: fear
          simp only [h4, if_false]
          push_neg at h4
          simp [not_le.mpr h2, not_le.mpr (lt_of_le_of_lt h1 h2), h3, h4]
    · simp only [h2, if_false]
      push_neg at h2
      by_cases h3 : j > a
      · simp only [h3, if_true]
        by_cases h4 : s > j
        · -- FFTT: sadness
          simp only [h4, if_true]
          simp [not_le.mpr h3, not_le.mpr (lt_of_le_of_lt h1 h3),
            not_le.mpr (lt_of_le_of_lt h2 h3), not_le.mpr h4]
        · -- FFTF: joy
          simp only [h4, if_false]
          push_neg at h4
          simp [not_le.mpr h3, not_le.mpr (lt_of_le_of_lt h1 h3),
            not_le.mpr (lt_of_le_of_lt h2 h3), h4]
      · simp only [h3, if_false]
        push_neg at h3
        by_cases h4 : s > a
        · -- FFFT: sadness
          simp only [h4, if_true]
          simp [not_le.mpr h4, not_le.mpr (lt_of_le_of_lt h1 h4),
            not_le.mpr (lt_of_le_of_lt h2 h4), not_le.mpr (lt_of_le_of_lt h3 h4)]
        · -- FFFF: anger
          simp only [h4, if_false]
          push_neg at h4
          simp [h1, h2, h3, h4]

end EmotionDetection

namespace EmotionDetection

/-- A non-empty stripped text fails the blank-input guard of line 22. -/
theorem not_blank {text : String} (h : pyStrip text ≠ "") :
    ¬(text = "" ∨ pyStrip text = "") := by
  rintro (rfl | he)
  · exact h (by decide)
  · exact h he

/-- C1: for every upstream success response whose first prediction entry
yields the five scores, `emotion_detector` sets `dominant_emotion` to the
earliest key in the fixed order anger, disgust, fear, joy, sadness whose
score is maximal; in particular, when all five scores are equal the dominant
emotion is `anger`. -/
theorem dominant_is_first_argmax (text : String) (h : pyStrip text ≠ "")
    (status : ℕ) (hs : status ≠ 400) (a d f j s : ℚ) (rest : List JValue) :
    (emotion_detector text (Upstream.response status (some (successBody a d f j s rest)))).1 =
      Except.ok (fullResult a d f j s) ∧
    (fullResult a d f j s).dominant_emotion = some (specArgmax a d f j s) ∧
    (a = d ∧ d = f ∧ f = j ∧ j = s → specArgmax a d f j s = "anger") := by
  refine ⟨?_, ?_, ?_⟩
  · unfold emotion_detector
    rw [if_neg (not_blank h)]
    dsimp only
    unfold detectorCore
    rw [if_neg hs]
    rfl
  · unfold fullResult
    dsimp only
    rw [dominantOf_eq_specArgmax]
  · rintro ⟨rfl, rfl, rfl, rfl⟩
    unfold specArgmax
    simp

/-- Witness for C1: a concrete success response with all five scores equal
to 1, on which the dominant emotion resolves to anger. -/
theorem dominant_is_first_argmax_witness :
    pyStrip "Sample text" ≠ "" ∧ (200 : ℕ) ≠ 400 ∧
    ((emotion_detector "Sample text"
        (Upstream.response 200 (some (successBody 1 1 1 1 1 [])))).1 =
      Except.ok (fullResult 1 1 1 1 1) ∧
    (fullResult 1 1 1 1 1).dominant_emotion = some (specArgmax 1 1 1 1 1) ∧
    ((1 : ℚ) = 1 ∧ (1 : ℚ) = 1 ∧ (1 : ℚ) = 1 ∧ (1 : ℚ) = 1 →
      specArgmax 1 1 1 1 1 = "anger")) :=
  ⟨by decide, by decide,
    dominant_is_first_argmax "Sample text" (by decide) 200 (by decide) 1 1 1 1 1 []⟩

/-- C2: for every input string that is empty or all-whitespace,
`emotion_detector` returns the all-null sentinel record immediately, with the
network-call flag false and independently of the upstream behaviour. -/
theorem blank_input_sentinel_no_network (text : String) (up : Upstream)
    (h : text = "" ∨ pyStrip text = "") :
    emotion_detector text up = (Except.ok EMPTY_RESULT, false) := by
  unfold emotion_detector
  rw [if_pos h]

/-- Witness for C2: a concrete all-whitespace input, with the upstream set to
a transport failure that is never reached. -/
theorem blank_input_sentinel_no_network_witness :
    (("   " : String) = "" ∨ pyStrip "   " = "") ∧
    emotion_detector "   " Upstream.transportError = (Except.ok EMPTY_RESULT, false) :=
  ⟨Or.inr (by decide),
    blank_input_sentinel_no_network "   " Upstream.transportError (Or.inr (by decide))⟩

/-- C3: for every upstream response with status 400, or whose body fails to
parse as JSON, or whose parsed body is an object with the
`emotionPredictions` key missing or bound to an empty list,
`emotion_detector` returns the all-null sentinel and raises no error. -/
theorem handled_upstream_failures_sentinel (text : String) (status : ℕ)
    (body : Option JValue)
    (h : status = 400 ∨ body = none ∨
      ∃ fields, body = some (JValue.obj fields) ∧
        (fields.lookup "emotionPredictions" = none ∨
         fields.lookup "emotionPredictions" = some (JValue.arr []))) :
    (emotion_detector text (Upstream.response status body)).1 = Except.ok EMPTY_RESULT := by
  unfold emotion_detector
  by_cases hb : text = "" ∨ pyStrip text = ""
  · rw [if_pos hb]
  · rw [if_neg hb]
    dsimp only
    unfold detectorCore
    by_cases hst : status = 400
    · rw [if_pos hst]
    · rw [if_neg hst]
      rcases h with h400 | hnone | ⟨fields, hbody, hlk⟩
      · exact absurd h400 hst
      · subst hnone
        rfl
      · subst hbody
        rcases hlk with hlk | hlk <;> simp [jGet, hlk, pyTruthy]

/-- Witness for C3: a concrete upstream 400 response yields the sentinel. -/
theorem handled_upstream_failures_sentinel_witness :
    ((400 : ℕ) = 400 ∨ (none : Option JValue) = none ∨
      ∃ fields, (none : Option JValue) = some (JValue.obj fields) ∧
        (fields.lookup "emotionPredictions" = none ∨
         fields.lookup "emotionPredictions" = some (JValue.arr []))) ∧
    (emotion_detector "hello" (Upstream.response 400 none)).1 = Except.ok EMPTY_RESULT :=
  ⟨Or.inl rfl, handled_upstream_failures_sentinel "hello" 400 none (Or.inl rfl)⟩

/-- C4: for every upstream success response with at least one prediction
entry, `emotion_detector` reads the five scores only from the first entry
(for every choice of later entries the result is the same), and every key
missing from the first entry defaults to 0.0. -/
theorem first_entry_only_missing_defaults_zero (text : String) (h : pyStrip text ≠ "")
    (status : ℕ) (hs : status ≠ 400) (oA oD oF oJ oS : Option ℚ) (rest : List JValue) :
    (emotion_detector text
      (Upstream.response status (some (partialBody oA oD oF oJ oS rest)))).1 =
      Except.ok (fullResult (oA.getD 0) (oD.getD 0) (oF.getD 0) (oJ.getD 0) (oS.getD 0)) := by
  unfold emotion_detector
  rw [if_neg (not_blank h)]
  dsimp only
  unfold detectorCore
  rw [if_neg hs]
  rcases oA with _ | a <;> rcases oD with _ | d <;> rcases oF with _ | f <;>
    rcases oJ with _ | j <;> rcases oS with _ | s <;> rfl

/-- Witness for C4: a first entry carrying only anger and fear, a second
(ignored) prediction entry, and the three missing keys defaulting to 0. -/
theorem first_entry_only_missing_defaults_zero_witness :
    pyStrip "mixed feelings" ≠ "" ∧ (200 : ℕ) ≠ 400 ∧
    (emotion_detector "mixed feelings"
      (Upstream.response 200 (some (partialBody (some 1) none (some 2) none none
        [JValue.str "ignored"])))).1 =
      Except.ok (fullResult ((some (1 : ℚ)).getD 0) ((none : Option ℚ).getD 0)
        ((some (2 : ℚ)).getD 0) ((none : Option ℚ).getD 0) ((none : Option ℚ).getD 0)) :=
  ⟨by decide, by decide,
    first_entry_only_missing_defaults_zero "mixed feelings" (by decide) 200 (by decide)
      (some 1) none (some 2) none none [JValue.str "ignored"]⟩

/-- C6: a transport-level failure of the outbound call is not caught:
`emotion_detector` propagates it to the caller instead of mapping it to the
all-null sentinel. -/
theorem transport_failure_propagates (text : String) (h : pyStrip text ≠ "") :
    emotion_detector text Upstream.transportError = (Except.error PyErr.transport, true) := by
  unfold emotion_detector
  rw [if_neg (not_blank h)]

/-- Witness for C6: a concrete non-blank input with a failing transport. -/
theorem transport_failure_propagates_witness :
    pyStrip "hello" ≠ "" ∧
    emotion_detector "hello" Upstream.transportError = (Except.error PyErr.transport, true) :=
  ⟨by decide, transport_failure_propagates "hello" (by decide)⟩

/-- C7: every record returned by `emotion_detector` is either the all-null
sentinel or fully populated with `dominant_emotion` equal to the first-listed
argmax of the five scores; no partially-populated record is returned. -/
theorem all_or_nothing_invariant (text : String) (up : Upstream) (r : Result)
    (h : (emotion_detector text up).1 = Except.ok r) :
    r = EMPTY_RESULT ∨
    ∃ a d f j s : ℚ,
      r = { anger := some a, disgust := some d, fear := some f, joy := some j,
            sadness := some s, dominant_emotion := some (specArgmax a d f j s) } := by
  unfold emotion_detector at h
  by_cases hb : text = "" ∨ pyStrip text = ""
  · rw [if_pos hb] at h
    dsimp only at h
    left
    exact (Except.ok.inj h).symm
  · rw [if_neg hb] at h
    cases up with
    | transportError =>
      dsimp only at h
      exact Except.noConfusion h
    | response status body =>
      dsimp only at h
      unfold detectorCore at h
      split at h
      · left; exact (Except.ok.inj h).symm
      · split at h
        · left; exact (Except.ok.inj h).symm
        · split at h
          · exact Except.noConfusion h
          · split at h
            · split at h
              · exact Except.noConfusion h
              · split at h
                · exact Except.noConfusion h
                · split at h
                  · exact Except.noConfusion h
                  · split at h
                    · exact Except.noConfusion h
                    · split at h
                      · exact Except.noConfusion h
                      · split at h
                        · exact Except.noConfusion h
                        · split at h
                          · exact Except.noConfusion h
                          · rename_i x1 a1 e1 x2 a2 e2 x3 a3 e3 x4 a4 e4 x5 a5 e5
                            injection h with h2
                            subst h2
                            right
                            exact ⟨a1, a2, a3, a4, a5, by rw [dominantOf_eq_specArgmax]⟩
            · left; exact (Except.ok.inj h).symm

/-- Witness for C7: the blank-input run returns the sentinel side of the
invariant. -/
theorem all_or_nothing_invariant_witness :
    (emotion_detector "" Upstream.transportError).1 = Except.ok EMPTY_RESULT ∧
    (EMPTY_RESULT = EMPTY_RESULT ∨
      ∃ a d f j s : ℚ,
        EMPTY_RESULT = { anger := some a, disgust := some d, fear := some f, joy := some j,
                         sadness := some s, dominant_emotion := some (specArgmax a d f j s) }) :=
  ⟨rfl, all_or_nothing_invariant "" Upstream.transportError EMPTY_RESULT rfl⟩

/-- C9: only an upstream status equal to exactly 400 triggers the
status-based sentinel: for every other status whose body parses and carries
at least one prediction entry, `emotion_detector` returns a fully populated
record, which differs from the sentinel. -/
theorem only_exact_400_triggers_sentinel (text : String) (h : pyStrip text ≠ "")
    (status : ℕ) (hs : status ≠ 400) (a d f j s : ℚ) (rest : List JValue) :
    (emotion_detector text (Upstream.response status (some (successBody a d f j s rest)))).1 =
      Except.ok (fullResult a d f j s) ∧
    fullResult a d f j s ≠ EMPTY_RESULT := by
  constructor
  · unfold emotion_detector
    rw [if_neg (not_blank h)]
    dsimp only
    unfold detectorCore
    rw [if_neg hs]
    rfl
  · simp [fullResult, EMPTY_RESULT, Result.mk.injEq]

/-- Witness for C9: a concrete 404 response with one prediction entry yields
a fully populated record. -/
theorem only_exact_400_triggers_sentinel_witness :
    pyStrip "so sad" ≠ "" ∧ (404 : ℕ) ≠ 400 ∧
    ((emotion_detector "so sad"
        (Upstream.response 404 (some (successBody 0 0 0 0 1 [])))).1 =
      Except.ok (fullResult 0 0 0 0 1) ∧
    fullResult 0 0 0 0 1 ≠ EMPTY_RESULT) :=
  ⟨by decide, by decide,
    only_exact_400_triggers_sentinel "so sad" (by decide) 404 (by decide) 0 0 0 0 1 []⟩

/-- C10: the parse-error guard covers only JSON decoding, not value coercion:
an upstream body whose first prediction carries a non-numeric string score
makes `emotion_detector` raise an uncaught ValueError instead of returning
the sentinel. -/
theorem nonnumeric_score_raises_uncaught :
    (emotion_detector "I feel great"
      (Upstream.response 200 (some (JValue.obj [("emotionPredictions",
        JValue.arr [JValue.obj [("emotion",
          JValue.obj [("anger", JValue.str "abc")])]])])))).1 =
      Except.error PyErr.valueError := by rfl

end EmotionDetection

namespace Server

open EmotionDetection

/-- C5: for every request to the emotion-detector route, when the Normalizer
returns a record, a null dominant emotion produces the exact literal error
body with status 200, and a present dominant emotion produces a 200 response
whose body is the templated sentence embedding the five scores and the
dominant emotion name. -/
theorem route_renders_error_line_or_sentence (req : HttpRequest) (up : Upstream)
    (result : Result)
    (h : (emotion_detector (extractText req) up).1 = Except.ok result) :
    (result.dominant_emotion = none →
      emotion_detector_route req up = Except.ok ("Invalid text! Please try again!", 200)) ∧
    (∀ name, result.dominant_emotion = some name →
      emotion_detector_route req up = Except.ok
        ("For the given statement, the system response is \x27anger\x27: " ++
          fmtScore result.anger ++ ", \x27disgust\x27: " ++ fmtScore result.disgust ++
          ", \x27fear\x27: " ++ fmtScore result.fear ++ ", \x27joy\x27: " ++
          fmtScore result.joy ++ " and \x27sadness\x27: " ++ fmtScore result.sadness ++
          ". The dominant emotion is " ++ name ++ ".", 200)) := by
  unfold emotion_detector_route
  rw [h]
  dsimp only
  constructor
  · intro hd
    rw [if_pos hd]
  · intro name hd
    rw [if_neg (by simp [hd])]
    unfold formatted fmtLabel
    rw [hd]

/-- Witness for C5: a GET request with no text field goes through the
sentinel path and renders the literal error line with status 200. -/
theorem route_renders_error_line_or_sentence_witness :
    (emotion_detector (extractText ⟨Method.get, none, none⟩) Upstream.transportError).1 =
      Except.ok EMPTY_RESULT ∧
    EMPTY_RESULT.dominant_emotion = none ∧
    emotion_detector_route ⟨Method.get, none, none⟩ Upstream.transportError =
      Except.ok ("Invalid text! Please try again!", 200) :=
  ⟨rfl, rfl,
    (route_renders_error_line_or_sentence ⟨Method.get, none, none⟩ Upstream.transportError
      EMPTY_RESULT rfl).1 rfl⟩

/-- C8: a GET request carrying a text value in the query parameter and a POST
request carrying the same value in the form field produce identical responses,
for every upstream behaviour and any content of the unused field. -/
theorem get_post_equivalence (v : String) (qo fo : Option String) (up : Upstream) :
    emotion_detector_route ⟨Method.get, some v, fo⟩ up =
      emotion_detector_route ⟨Method.post, qo, some v⟩ up := rfl

end Server
